import Mathlib

/-
Verification development for the pump-driven concentration control system
(`color_auto/color_int.py` and its companions `pump_cal.py`, `color_log.py`).

Shallow embedding conventions:
* Python floats are modelled as exact rationals (ℚ).  The claims under
  study are about the algebraic form of the computations and about control
  flow, not about rounding error, so ℚ is the faithful choice.
* Serial responses are byte lists (`List Nat`).  The pump line is opened
  with seven data bits (`bytesize=serial.SEVENBITS`), so every received
  byte is < 128 and Python's `bytes.decode(errors='ignore')` is the
  identity on the byte values; a decoded-string membership test such as
  `'S' in status_str` is therefore membership of the byte 83 in the raw
  byte list.
* Balance lines are character lists (`List Char`); the balance emits
  ASCII, for which `Char.isDigit` agrees with Python's `str.isdigit`.
* The dispensing monitor loop is modelled as a fold over a finite list of
  observations, one per loop iteration: each observation carries the
  elapsed wall-clock time at the head of the iteration and the two pump
  responses (status, revolutions remaining) that a due status check would
  read.
-/

namespace ColorInt

/-- Configuration constant `DEFAULT_ML_PER_REVOLUTION = 2.7489` from
`color_int.py`. -/
def DEFAULT_ML_PER_REVOLUTION : ℚ := 27489 / 10000

/-- The minimum revolution count `MIN_REVOLUTIONS = 0.1` hard-coded in
`run_concentration_control`. -/
def MIN_REVOLUTIONS : ℚ := 1 / 10

/-- Dose computation, `color_int.py` line 304:
`solvent_weight_needed = sample_w * solvent_ratio / args.ratio` with
`solvent_ratio = 1 - args.ratio`. -/
def solvent_weight_needed (ratio sample_w : ℚ) : ℚ :=
  sample_w * (1 - ratio) / ratio

/-- Line 305: `volume_needed_ml = solvent_weight_needed` (the unit-density
assumption `1 g/ml`). -/
def volume_needed_ml (ratio sample_w : ℚ) : ℚ :=
  solvent_weight_needed ratio sample_w

/-- Lines 308-314: `revolutions_needed = volume_needed_ml / args.ml_per_rev`,
then clamped below by `MIN_REVOLUTIONS`. -/
def revolutions_needed (ratio ml_per_rev sample_w : ℚ) : ℚ :=
  if volume_needed_ml ratio sample_w / ml_per_rev < MIN_REVOLUTIONS then
    MIN_REVOLUTIONS
  else
    volume_needed_ml ratio sample_w / ml_per_rev

/-! ### Pump driver acknowledgement validation

Each `PumpController` method of `color_int.py` sends one command frame and
returns a `Bool` computed from the raw response bytes.  The functions below
are those return-value computations, applied to the response `resp`. -/

/-- Line 82: `assign_number` returns `r in (b'\x06', b'')`. -/
def assign_number (resp : List Nat) : Bool :=
  resp == [6] || resp == []

/-- Line 86: `enable_remote` returns `response == b'\x06'`. -/
def enable_remote (resp : List Nat) : Bool :=
  resp == [6]

/-- Line 90: `enable_local` returns `response == b'\x06'`. -/
def enable_local (resp : List Nat) : Bool :=
  resp == [6]

/-- Line 99: `set_speed` returns `response == b'\x06'`. -/
def set_speed (resp : List Nat) : Bool :=
  resp == [6]

/-- Line 108: `dispense_volume` returns `result == b'\x06'`. -/
def dispense_volume (resp : List Nat) : Bool :=
  resp == [6]

/-- Line 115: `start_pump` returns `result == b'\x06'`. -/
def start_pump (resp : List Nat) : Bool :=
  resp == [6]

/-- Line 122: `stop_pump` returns `result == b'\x06'`. -/
def stop_pump (resp : List Nat) : Bool :=
  resp == [6]

/-! ### Stop detection (lines 364-380) -/

/-- Whether the byte list contains the adjacent pair `'.','0'` (bytes 46,
48): the `'.0' in revs_str` substring test of line 373 under the 7-bit
decoding convention. -/
def containsDotZero : List Nat → Bool
  | [] => false
  | [_] => false
  | a :: b :: rest => (a == 46 && b == 48) || containsDotZero (b :: rest)

/-- The stop-detection computation of lines 364-374, as a pure function of
the raw status response and the raw revolutions-remaining response:
`stop_detected` ends up true iff
`any(c in status_str for c in 'SXH') or b'\x06' in status` holds or
`'0' in revs_str or '.0' in revs_str or b'\x06' in revs_remaining` holds.
Bytes: 'S' = 83, 'X' = 88, 'H' = 72, '0' = 48, ACK = 6. -/
def stop_detected (status revs : List Nat) : Bool :=
  ((status.contains 83 || status.contains 88 || status.contains 72)
      || status.contains 6)
    || ((revs.contains 48 || containsDotZero revs) || revs.contains 6)

/-- The stop condition exactly as the claim words it: status contains a
character in {S, X, H}, or status contains the ACK byte, or the
revolutions-remaining response contains the character '0'.  (This is the
claim's predicate, written for comparison with `stop_detected`; it is not
taken from the source.) -/
def claimStopDetected (status revs : List Nat) : Bool :=
  (status.contains 83 || status.contains 88 || status.contains 72)
    || status.contains 6 || revs.contains 48

/-! ### Balance reader (`balance_reader_thread` and `get_weight`,
lines 158-183) -/

/-- The character filter of line 166: `c.isdigit() or c in '.-'`. -/
def isNumChar (c : Char) : Bool :=
  c.isDigit || c == '.' || c == '-'

/-- Line 166: `num = ''.join(c for c in txt if c.isdigit() or c in '.-')`:
the subsequence of digit, dot and minus characters of the line. -/
def extractNum (line : List Char) : List Char :=
  line.filter isNumChar

/-- Numeric value of a digit string, most significant digit first. -/
def digitsVal (l : List Char) : ℕ :=
  l.foldl (fun a c => a * 10 + (c.toNat - 48)) 0

/-- Unsigned part of Python `float` parsing over the alphabet of digits,
dot and minus: digits, optionally a single dot and more digits, at least
one digit overall; any other character (in particular a non-leading minus)
is a parse failure. -/
def pyFloatCore (body : List Char) : Option ℚ :=
  let ip := body.takeWhile Char.isDigit
  let rest1 := body.dropWhile Char.isDigit
  match rest1 with
  | [] => if ip.isEmpty then none else some ((digitsVal ip : ℚ))
  | c :: rest2 =>
    if c == '.' then
      let fp := rest2.takeWhile Char.isDigit
      let rest3 := rest2.dropWhile Char.isDigit
      if rest3.isEmpty && (!ip.isEmpty || !fp.isEmpty) then
        some ((digitsVal ip : ℚ) + (digitsVal fp : ℚ) / (10 : ℚ) ^ fp.length)
      else none
    else none

/-- Python's `float(s)` on a string over the alphabet of digits, dot and
minus (the only characters `extractNum` lets through): an optional leading
minus sign followed by a digit string with at most one dot and at least
one digit.  `none` models `float` raising `ValueError`. -/
def pyFloatVal (l : List Char) : Option ℚ :=
  match l with
  | '-' :: rest => (pyFloatCore rest).map (fun q => -q)
  | _ => pyFloatCore l

/-- One iteration of `balance_reader_thread` (lines 162-173) on a decoded,
stripped line: filter the numeric characters; if the result is non-empty
and parses as a float, store it as the new latest measurement, otherwise
leave the previous measurement unchanged. -/
def readerStep (prev : Option (List Char)) (line : List Char) :
    Option (List Char) :=
  if (extractNum line).isEmpty then prev
  else
    match pyFloatVal (extractNum line) with
    | some _ => some (extractNum line)
    | none => prev

/-- The latest measurement after the reader thread has consumed the given
lines, starting from the initial `latest_measurement = None`. -/
def runReader (lines : List (List Char)) : Option (List Char) :=
  lines.foldl readerStep none

/-- The claim's extraction rule, written from the claim's words for
comparison with `readerStep` (not taken from the source): split the line
on spaces and take the last whitespace-delimited token that parses as a
float. -/
def lastNumericToken (line : List Char) : Option (List Char) :=
  ((List.splitOn ' ' line).filter (fun t => (pyFloatVal t).isSome)).getLast?

/-- Round half to even, Python's rounding rule for `round`. -/
def roundHalfEven (q : ℚ) : ℤ :=
  if q - ⌊q⌋ < 1/2 then ⌊q⌋
  else if 1/2 < q - ⌊q⌋ then ⌊q⌋ + 1
  else if ⌊q⌋ % 2 = 0 then ⌊q⌋ else ⌊q⌋ + 1

/-- Python's `round(q, n)` for nonnegative `n`. -/
def pyRound (q : ℚ) (n : ℕ) : ℚ :=
  (roundHalfEven (q * 10 ^ n) : ℚ) / 10 ^ n

/-- The function `get_weight` (lines 176-182):
`round(float(latest_measurement or 0.0), 4)`, with the `ValueError`
handler returning `0.0000`.  A `None` measurement selects the `0.0`
default (the stored string is never empty, so the other falsy case cannot
arise). -/
def get_weight (s : Option (List Char)) : ℚ :=
  match s with
  | none => pyRound 0 4
  | some cs =>
    match pyFloatVal cs with
    | some q => pyRound q 4
    | none => 0

/-- Whether evaluating `get_weight` on the given stored measurement would
reach the `except ValueError` handler of line 181, i.e. whether the stored
string fails to parse as a float. -/
def hitsValueErrorHandler (s : Option (List Char)) : Bool :=
  match s with
  | none => false
  | some cs => (pyFloatVal cs).isNone

/-! ### Calibration store (`CalibrationManager`, lines 185-210, and the
profile resolution in `main`, lines 480-491) -/

/-- The possible states of the calibration file as `load_profiles` sees
them: missing, unreadable as JSON, or parsed JSON whose `profiles` key is
absent or maps profile names to their `ml_per_revolution` values. -/
inductive CalFile
  | absent
  | corrupt
  | json (profiles : Option (List (String × ℚ)))

/-- `CalibrationManager.load_profiles` (lines 192-205): a missing or
corrupt file yields an empty profile map, a parsed file without a
`profiles` key has one inserted empty, otherwise the stored map is
returned. -/
def load_profiles : CalFile → List (String × ℚ)
  | .absent => []
  | .corrupt => []
  | .json none => []
  | .json (some ps) => ps

/-- `CalibrationManager.get_profile` (lines 207-210): look the name up in
the loaded profile map. -/
def get_profile (ps : List (String × ℚ)) (name : String) : Option ℚ :=
  ps.lookup name

/-- The `ml_per_rev` value `main` (lines 480-491) runs the controller
with, when `--ml-per-rev` is left at its default: the named profile's
value when the lookup succeeds, the hardcoded default otherwise. -/
def resolve_ml_per_rev (file : CalFile) (name : String) : ℚ :=
  match get_profile (load_profiles file) name with
  | some v => v
  | none => DEFAULT_ML_PER_REVOLUTION

/-! ### Actual-concentration computation (`color_int.py` line 423 and
`color_log.py` `save_data_to_csv` line 125) -/

/-- Python division, raising `ZeroDivisionError` (modelled as `none`) on a
zero divisor. -/
def pyDiv (a b : ℚ) : Option ℚ :=
  if b = 0 then none else some (a / b)

/-- The guarded concentration computation, identical at both sites:
`(sample_w / final_weight) * 100 if final_weight > 0 else 0`. -/
def actual_concentration (sample_w final_w : ℚ) : Option ℚ :=
  if 0 < final_w then (pyDiv sample_w final_w).map (fun x => x * 100)
  else some 0

/-! ### Dispense cycle and its monitoring loop
(`run_concentration_control`, lines 271-450) -/

/-- Commands the controller can send to the pump during one cycle. -/
inductive PumpCmd
  | setVolume (revs : ℚ)
  | start
  | stop
  | queryStatus
  | queryRevs
deriving DecidableEq

/-- One iteration of the monitoring loop (lines 338-393): the elapsed
wall-clock time `t` at the head of the iteration (relative to `start`)
and the status and revolutions-remaining responses a due status check
would read. -/
structure Obs where
  t : ℚ
  status : List Nat
  revs : List Nat
deriving DecidableEq

/-- The monitoring loop of lines 338-393, as a function of the `timeout`
bound of the `while` condition, the `force_stop_after` ceiling, the
current `last_status_check` value (initially `start - 3`, i.e. `-3` in
elapsed time) and the remaining iterations.  Returns the final `done`
flag together with the pump commands issued inside the loop, in order.
Per iteration: the `while` guard `t < timeout` is tested; a status check
runs when `t - last_status_check ≥ 1`, issuing the status and
revolutions-remaining queries and breaking with `done = True` when
`stop_detected` fires; otherwise (and also when no check was due) the
forced-stop test `t ≥ force_stop_after` issues a stop command and breaks
with `done = True`. -/
def monitorLoop (timeout ceiling : ℚ) : ℚ → List Obs → Bool × List PumpCmd
  | _, [] => (false, [])
  | lastCheck, o :: rest =>
    if o.t < timeout then
      if 1 ≤ o.t - lastCheck then
        if stop_detected o.status o.revs then
          (true, [PumpCmd.queryStatus, PumpCmd.queryRevs])
        else if ceiling ≤ o.t then
          (true, [PumpCmd.queryStatus, PumpCmd.queryRevs, PumpCmd.stop])
        else
          ((monitorLoop timeout ceiling o.t rest).1,
            PumpCmd.queryStatus :: PumpCmd.queryRevs ::
              (monitorLoop timeout ceiling o.t rest).2)
      else
        if ceiling ≤ o.t then (true, [PumpCmd.stop])
        else monitorLoop timeout ceiling lastCheck rest
    else (false, [])

/-- The monitoring phase: the loop starting from
`last_status_check = start - 3`, followed by the line-396 fallback
`if not done: pump.stop_pump()`. -/
def dispensePhase (timeout ceiling : ℚ) (obs : List Obs) :
    Bool × List PumpCmd :=
  ((monitorLoop timeout ceiling (-3) obs).1,
    (monitorLoop timeout ceiling (-3) obs).2 ++
      if (monitorLoop timeout ceiling (-3) obs).1 then [] else [PumpCmd.stop])

/-- Result of one dispense cycle: the pump commands issued during the
cycle, and whether the cycle was skipped for lack of a sample. -/
structure CycleResult where
  cmds : List PumpCmd
  skipped : Bool
deriving DecidableEq

/-- The per-cycle pump interaction of lines 295-398: if the sample weight
read at the end of the sample-addition window is `≤ 0` the cycle is
skipped with no pump command (lines 297-300); otherwise the computed
revolution count is sent as a set-volume command, and on its
acknowledgement a start command; on the start acknowledgement the
monitoring loop runs with `max_time = revolutions / (flow_rate/60) * 1.5`
and ceiling `max_time * 1.1`.  `setVolOk` and `startOk` are the
acknowledgement outcomes of the two commands. -/
def runCycle (ratio ml_per_rev flow_rate timeout sample_w : ℚ)
    (setVolOk startOk : Bool) (obs : List Obs) : CycleResult :=
  if sample_w ≤ 0 then ⟨[], true⟩
  else
    if setVolOk then
      if startOk then
        ⟨PumpCmd.setVolume (revolutions_needed ratio ml_per_rev sample_w) ::
            PumpCmd.start ::
            (dispensePhase timeout
              (revolutions_needed ratio ml_per_rev sample_w /
                  (flow_rate / 60) * (3/2) * (11/10)) obs).2,
          false⟩
      else
        ⟨[PumpCmd.setVolume (revolutions_needed ratio ml_per_rev sample_w),
            PumpCmd.start], false⟩
    else
      ⟨[PumpCmd.setVolume (revolutions_needed ratio ml_per_rev sample_w)],
        false⟩

end ColorInt

namespace ColorInt

lemma containsDotZero_contains (l : List Nat) (h : containsDotZero l = true) :
    l.contains 48 = true := by
  induction l with
  | nil => simp [containsDotZero] at h
  | cons a rest ih =>
    cases rest with
    | nil => simp [containsDotZero] at h
    | cons b rest2 =>
      simp only [containsDotZero, Bool.or_eq_true, Bool.and_eq_true, beq_iff_eq] at h
      rcases h with ⟨_, hb⟩ | h
      · subst hb
        simp [List.contains_cons]
      · have hc := ih h
        rw [List.contains_cons, hc]
        simp

lemma hitsValueErrorHandler_readerStep (s : Option (List Char))
    (line : List Char) (h : hitsValueErrorHandler s = false) :
    hitsValueErrorHandler (readerStep s line) = false := by
  unfold readerStep
  split_ifs
  · exact h
  · cases hv : pyFloatVal (extractNum line) with
    | none => simpa [hv] using h
    | some q => simp [hitsValueErrorHandler, hv]

lemma hitsValueErrorHandler_foldl (lines : List (List Char))
    (s : Option (List Char)) (h : hitsValueErrorHandler s = false) :
    hitsValueErrorHandler (lines.foldl readerStep s) = false := by
  induction lines generalizing s with
  | nil => simpa using h
  | cons l ls ih => exact ih _ (hitsValueErrorHandler_readerStep s l h)

end ColorInt

namespace ColorInt

/-- C1: for every ratio strictly between 0 and 1, every positive sample
weight and every positive ml-per-revolution factor, the dose computation
returns the formula value `(sample_w * (1-ratio) / ratio) / ml_per_rev`
when that value is at least `MIN_REVOLUTIONS`, returns `MIN_REVOLUTIONS`
otherwise, and in all cases the result is at least `MIN_REVOLUTIONS`. -/
theorem revolutions_clamped_formula (ratio ml_per_rev sample_w : ℚ)
    (h0 : 0 < ratio) (h1 : ratio < 1) (h2 : 0 < sample_w)
    (h3 : 0 < ml_per_rev) :
    (MIN_REVOLUTIONS ≤ sample_w * (1 - ratio) / ratio / ml_per_rev →
      revolutions_needed ratio ml_per_rev sample_w =
        sample_w * (1 - ratio) / ratio / ml_per_rev) ∧
    (sample_w * (1 - ratio) / ratio / ml_per_rev < MIN_REVOLUTIONS →
      revolutions_needed ratio ml_per_rev sample_w = MIN_REVOLUTIONS) ∧
    MIN_REVOLUTIONS ≤ revolutions_needed ratio ml_per_rev sample_w := by
  unfold revolutions_needed volume_needed_ml solvent_weight_needed
  refine ⟨?_, ?_, ?_⟩
  · intro h
    rw [if_neg (not_lt.mpr h)]
  · intro h
    rw [if_pos h]
  · split_ifs with h
    · exact le_refl _
    · exact le_of_not_lt h

/-- Witness for `revolutions_clamped_formula` at ratio 1/2, ml_per_rev 1,
sample weight 1. -/
theorem revolutions_clamped_formula_witness :
    MIN_REVOLUTIONS ≤ revolutions_needed (1/2) 1 1 :=
  (revolutions_clamped_formula (1/2) 1 1 (by norm_num) (by norm_num)
    (by norm_num) (by norm_num)).2.2

/-- C4 counterexample: with an empty status response and a
revolutions-remaining response consisting of the single ACK byte `0x06`,
the code sets `done` (an ACK in the revolutions-remaining response triggers
the line-373 branch), while none of the three conditions listed by the
claim holds. -/
theorem stop_detection_claim_cex :
    stop_detected [] [6] = true ∧ claimStopDetected [] [6] = false := by
  constructor <;> rfl

/-- C4 amended: `done` is set during status polling exactly when the
claim's three conditions hold or the raw revolutions-remaining response
contains the ACK byte `0x06`.  (The `'.0'` substring test of line 373 is
subsumed by the `'0'` membership test and adds nothing.) -/
theorem stop_detected_eq_claim_or_ack_in_revs (status revs : List Nat) :
    stop_detected status revs =
      (claimStopDetected status revs || revs.contains 6) := by
  unfold stop_detected claimStopDetected
  cases hdz : containsDotZero revs
  · simp only [hdz, Bool.or_false]
    cases status.contains 83 <;> cases status.contains 88 <;>
      cases status.contains 72 <;> cases status.contains 6 <;>
      cases revs.contains 48 <;> cases revs.contains 6 <;> rfl
  · have h48 := containsDotZero_contains revs hdz
    simp only [hdz, h48]
    cases status.contains 83 <;> cases status.contains 88 <;>
      cases status.contains 72 <;> cases status.contains 6 <;>
      cases revs.contains 6 <;> rfl

/-- C6 counterexample: `assign_number` in `color_int.py` reports success on
an empty response, contradicting the claim that every
acknowledgement-validating call (assign number included) succeeds only on
the single byte `0x06`. -/
theorem ack_empty_response_cex :
    assign_number [] = true ∧ ([] : List Nat) ≠ [6] := by
  constructor
  · rfl
  · intro h
    exact List.noConfusion h

/-- C6 amended: `enable_remote`, `enable_local`, `set_speed`,
`dispense_volume`, `start_pump` and `stop_pump` each report success exactly
when the response is the single ACK byte `0x06` (so an empty response is a
failure for them), while `assign_number` reports success exactly when the
response is the ACK byte or empty. -/
theorem ack_validation_characterization (resp : List Nat) :
    (assign_number resp = true ↔ (resp = [6] ∨ resp = [])) ∧
    (enable_remote resp = true ↔ resp = [6]) ∧
    (enable_local resp = true ↔ resp = [6]) ∧
    (set_speed resp = true ↔ resp = [6]) ∧
    (dispense_volume resp = true ↔ resp = [6]) ∧
    (start_pump resp = true ↔ resp = [6]) ∧
    (stop_pump resp = true ↔ resp = [6]) := by
  unfold assign_number enable_remote enable_local set_speed dispense_volume
    start_pump stop_pump
  simp

/-- C2: at the concrete inputs sample weight 2, ratio 1/20.9 and
ml-per-revolution 2.7489, the dose computation yields solvent weight 39.8,
volume 39.8 ml, and a revolution count within 0.01 of 14.48. -/
theorem dose_concrete_scenario :
    solvent_weight_needed (10/209) 2 = 398/10 ∧
    volume_needed_ml (10/209) 2 = 398/10 ∧
    |revolutions_needed (10/209) (27489/10000) 2 - 1448/100| < 1/100 := by
  refine ⟨?_, ?_, ?_⟩
  · unfold solvent_weight_needed
    norm_num
  · unfold volume_needed_ml solvent_weight_needed
    norm_num
  · unfold revolutions_needed volume_needed_ml solvent_weight_needed
      MIN_REVOLUTIONS
    rw [if_neg (by norm_num)]
    rw [abs_lt]
    constructor <;> norm_num

/-- C7 counterexample: on the line `"1 2"` the reader stores `"12"` (the
concatenation of all numeric characters of the line), not the last valid
numeric token `"2"` that the claim describes. -/
theorem reader_not_last_token_cex :
    readerStep none ("1 2".toList) = some ("12".toList) ∧
    lastNumericToken ("1 2".toList) = some ("2".toList) ∧
    ("12".toList) ≠ ("2".toList) := by
  refine ⟨rfl, rfl, by decide⟩

/-- C7 amended: for every line, the reader concatenates the line's digit,
dot and minus characters, in order, into a single token; when that token
parses as a float it is stored as the current weight, and otherwise (in
particular when the line has no such characters, or the concatenation is
malformed) the line is silently ignored and the previously stored weight
is left unchanged. -/
theorem readerStep_characterization (prev : Option (List Char))
    (line : List Char) :
    readerStep prev line =
      if (pyFloatVal (extractNum line)).isSome then some (extractNum line)
      else prev := by
  unfold readerStep
  cases hn : extractNum line with
  | nil => rfl
  | cons c cs => cases hv : pyFloatVal (c :: cs) <;> simp [hv]

/-- C8: when the calibration file is absent, corrupt, without a
`profiles` key, or without the requested profile name, the controller
runs with the hardcoded default ml-per-revolution constant; when the file
contains the named profile, the controller uses that profile's
`ml_per_revolution` value (the last conjunct covers both cases of the
lookup at once). -/
theorem calibration_profile_fallback (name : String)
    (ps : List (String × ℚ)) :
    resolve_ml_per_rev .absent name = DEFAULT_ML_PER_REVOLUTION ∧
    resolve_ml_per_rev .corrupt name = DEFAULT_ML_PER_REVOLUTION ∧
    resolve_ml_per_rev (.json none) name = DEFAULT_ML_PER_REVOLUTION ∧
    resolve_ml_per_rev (.json (some ps)) name =
      (ps.lookup name).getD DEFAULT_ML_PER_REVOLUTION := by
  refine ⟨rfl, rfl, rfl, ?_⟩
  unfold resolve_ml_per_rev get_profile load_profiles
  cases ps.lookup name <;> rfl

/-- C9: after any sequence of balance lines, the stored latest
measurement is either still `None` or a string that parses as a float, so
`get_weight` never reaches its `ValueError` handler; and with nothing
stored `get_weight` returns `0.0`. -/
theorem reader_measurement_invariant (lines : List (List Char)) :
    hitsValueErrorHandler (runReader lines) = false ∧
    get_weight none = 0 := by
  constructor
  · exact hitsValueErrorHandler_foldl lines none rfl
  · show pyRound 0 4 = 0
    norm_num [pyRound, roundHalfEven]

/-- C3: for every dispense cycle, when the weight read at the end of the
sample-addition window is less than or equal to zero, the cycle is
skipped as having no sample: no pump command of any kind is issued and
the controller proceeds to the next cycle. -/
theorem no_sample_skips_pump
    (ratio ml_per_rev flow_rate timeout sample_w : ℚ)
    (setVolOk startOk : Bool) (obs : List Obs) (h : sample_w ≤ 0) :
    (runCycle ratio ml_per_rev flow_rate timeout sample_w
        setVolOk startOk obs).cmds = [] ∧
    (runCycle ratio ml_per_rev flow_rate timeout sample_w
        setVolOk startOk obs).skipped = true := by
  unfold runCycle
  rw [if_pos h]
  exact ⟨rfl, rfl⟩

/-- Witness for `no_sample_skips_pump` at sample weight `0`. -/
theorem no_sample_skips_pump_witness :
    (runCycle 1 1 1 1 0 true true []).cmds = [] ∧
    (runCycle 1 1 1 1 0 true true []).skipped = true :=
  no_sample_skips_pump 1 1 1 1 0 true true [] (by norm_num)

lemma monitorLoop_done_stop (timeout ceiling : ℚ) :
    ∀ (obs : List Obs) (lc : ℚ),
      (∀ o ∈ obs, stop_detected o.status o.revs = false) →
      (monitorLoop timeout ceiling lc obs).1 = true →
      PumpCmd.stop ∈ (monitorLoop timeout ceiling lc obs).2 := by
  intro obs
  induction obs with
  | nil =>
    intro lc hnd hdone
    simp [monitorLoop] at hdone
  | cons o rest ih =>
    intro lc hnd hdone
    have ho := hnd o (List.mem_cons_self o rest)
    have hrest : ∀ p ∈ rest, stop_detected p.status p.revs = false :=
      fun p hp => hnd p (List.mem_cons_of_mem o hp)
    by_cases h1 : o.t < timeout
    · by_cases h2 : 1 ≤ o.t - lc
      · by_cases h3 : ceiling ≤ o.t
        · simp [monitorLoop, h1, h2, ho, h3]
        · simp only [monitorLoop, if_pos h1, if_pos h2, ho, Bool.false_eq_true,
            if_false, if_neg h3] at hdone ⊢
          exact List.mem_cons_of_mem _ (List.mem_cons_of_mem _
            (ih o.t hrest hdone))
      · by_cases h3 : ceiling ≤ o.t
        · simp [monitorLoop, h1, h2, h3]
        · simp only [monitorLoop, if_pos h1, if_neg h2, if_neg h3] at hdone ⊢
          exact ih lc hrest hdone
    · simp [monitorLoop, h1] at hdone

lemma monitorLoop_ceiling_done (timeout ceiling : ℚ) :
    ∀ (pre : List Obs) (o : Obs) (post : List Obs) (lc : ℚ),
      (∀ p ∈ pre ++ o :: post, stop_detected p.status p.revs = false) →
      (∀ p ∈ pre, p.t < timeout) →
      ceiling ≤ o.t → o.t < timeout →
      (monitorLoop timeout ceiling lc (pre ++ o :: post)).1 = true := by
  intro pre
  induction pre with
  | nil =>
    intro o post lc hnd hpre hc ht
    have ho := hnd o (by simp)
    by_cases h2 : 1 ≤ o.t - lc
    · simp [monitorLoop, ht, h2, ho, hc]
    · simp [monitorLoop, ht, h2, hc]
  | cons p pre ih =>
    intro o post lc hnd hpre hc ht
    have hp := hnd p (by simp)
    have hpt : p.t < timeout := hpre p (by simp)
    have hnd2 : ∀ q ∈ pre ++ o :: post, stop_detected q.status q.revs = false :=
      fun q hq => hnd q (by simp [hq])
    have hpre2 : ∀ q ∈ pre, q.t < timeout := fun q hq => hpre q (by simp [hq])
    by_cases h2 : 1 ≤ p.t - lc
    · by_cases h3 : ceiling ≤ p.t
      · simp [monitorLoop, hpt, h2, hp, h3]
      · simp only [List.cons_append, monitorLoop, if_pos hpt, if_pos h2, hp,
          Bool.false_eq_true, if_false, if_neg h3]
        exact ih o post p.t hnd2 hpre2 hc ht
    · by_cases h3 : ceiling ≤ p.t
      · simp [monitorLoop, hpt, h2, h3]
      · simp only [List.cons_append, monitorLoop, if_pos hpt, if_neg h2,
          if_neg h3]
        exact ih o post lc hnd2 hpre2 hc ht

/-- C5: in a dispense cycle whose set-volume and start commands are
acknowledged and in which no stop signal is ever detected, a pump stop
command is always issued (the pump is never left running without a stop
being sent), and as soon as an iteration of the monitoring loop observes
an elapsed time at or past the ceiling
`max_time * 1.1 = revolutions / (flow_rate/60) * 1.5 * 1.1` while the
`while` guard still holds, the loop marks the cycle done. -/
theorem ceiling_forces_stop
    (ratio ml_per_rev flow_rate timeout sample_w : ℚ) (obs : List Obs)
    (hsw : 0 < sample_w)
    (hnd : ∀ o ∈ obs, stop_detected o.status o.revs = false) :
    PumpCmd.stop ∈
      (runCycle ratio ml_per_rev flow_rate timeout sample_w
        true true obs).cmds ∧
    (∀ pre o post, obs = pre ++ o :: post →
      (∀ p ∈ pre, p.t < timeout) →
      revolutions_needed ratio ml_per_rev sample_w /
          (flow_rate / 60) * (3/2) * (11/10) ≤ o.t →
      o.t < timeout →
      (monitorLoop timeout
        (revolutions_needed ratio ml_per_rev sample_w /
          (flow_rate / 60) * (3/2) * (11/10)) (-3) obs).1 = true) := by
  constructor
  · have hmem : PumpCmd.stop ∈ (dispensePhase timeout
        (revolutions_needed ratio ml_per_rev sample_w /
          (flow_rate / 60) * (3/2) * (11/10)) obs).2 := by
      unfold dispensePhase
      by_cases hdone : (monitorLoop timeout
          (revolutions_needed ratio ml_per_rev sample_w /
            (flow_rate / 60) * (3/2) * (11/10)) (-3) obs).1 = true
      · exact List.mem_append_left _
          (monitorLoop_done_stop _ _ obs (-3) hnd hdone)
      · refine List.mem_append_right _ ?_
        rw [if_neg hdone]
        exact List.mem_singleton.mpr rfl
    unfold runCycle
    rw [if_neg (not_le.mpr hsw)]
    exact List.mem_cons_of_mem _ (List.mem_cons_of_mem _ hmem)
  · intro pre o post heq hpre hc ht
    subst heq
    exact monitorLoop_ceiling_done _ _ pre o post (-3) hnd hpre hc ht

/-- Witness for `ceiling_forces_stop`: one observation at elapsed time 2,
past the ceiling 1.65 computed from one revolution at 60 RPM, with empty
responses. -/
theorem ceiling_forces_stop_witness :
    PumpCmd.stop ∈
      (runCycle (1/2) 1 60 100 1 true true [⟨2, [], []⟩]).cmds ∧
    (monitorLoop 100
      (revolutions_needed (1/2) 1 1 / ((60 : ℚ) / 60) * (3/2) * (11/10))
      (-3) [⟨2, [], []⟩]).1 = true := by
  have h := ceiling_forces_stop (1/2) 1 60 100 1 [⟨2, [], []⟩]
    (by norm_num)
    (by
      intro o ho
      rw [List.mem_singleton] at ho
      subst ho
      rfl)
  refine ⟨h.1, h.2 [] ⟨2, [], []⟩ [] rfl (by simp) ?_ (by norm_num)⟩
  norm_num [revolutions_needed, volume_needed_ml, solvent_weight_needed,
    MIN_REVOLUTIONS]

/-- C10: the actual-concentration computation of the Reporting step and
of the CSV logger is total: it never divides by zero (the division is
reached only under the guard `final_weight > 0`), returning
`sample_w / final_w * 100` for a positive final weight and `0`
otherwise. -/
theorem actual_concentration_total (sample_w final_w : ℚ) :
    (actual_concentration sample_w final_w).isSome = true ∧
    actual_concentration sample_w final_w =
      some (if 0 < final_w then sample_w / final_w * 100 else 0) := by
  unfold actual_concentration pyDiv
  split_ifs with h h0
  · exact absurd h0 (ne_of_gt h)
  · exact ⟨rfl, rfl⟩
  · exact ⟨rfl, rfl⟩

end ColorInt
